import Mathlib

/-!
Shallow embedding of `festival.py`, a script that builds a Spotify playlist
from a list of artist names.  The pure logic of the script — artist-name
matching, remix/edit track filtering, per-artist track capping, result
aggregation and batch splitting — is translated here as executable Lean
definitions; the external Spotify API calls are modelled as explicit inputs
(an `Except` value standing for the outcome of the call, with `Except.error`
standing for a raised exception).

One point of the source matters throughout: `fetch_artist_details` evaluates
`difflib.SequenceMatcher` (line 160 of festival.py), but the module never
imports `difflib`.  In Python this raises `NameError` the first time the line
runs, i.e. for the first candidate that fails the case-insensitive exact
comparison; the blanket `except Exception` of the function then turns the
whole scan into a no-match result with an error log.  The embedding models
this faithfully.
-/

namespace Festival

/-- Python `str.lower()` restricted to the ASCII case mapping used by all
strings that occur in this development. -/
def pyLower (s : String) : String :=
  String.mk (s.data.map Char.toLower)

/-- Helper for substring search: does the second list occur at the head of
the first? (Python slicing comparison semantics over characters.) -/
def startsWithL : List Char → List Char → Bool
  | _, [] => true
  | [], _ :: _ => false
  | c :: cs, n :: ns => (c == n) && startsWithL cs ns

/-- Does `needle` occur as a contiguous run inside `hay`? -/
def containsSub : List Char → List Char → Bool
  | _, [] => true
  | [], _ :: _ => false
  | c :: cs, n :: ns => startsWithL (c :: cs) (n :: ns) || containsSub cs (n :: ns)

/-- Python `needle in hay` on strings: substring containment. -/
def pyIn (needle hay : String) : Bool :=
  containsSub hay.data needle.data

/-- One artist record: the fields of a Spotify search item that the script
reads, and also the shape of the dict `fetch_artist_details` returns
(`ArtistData` in festival.py). -/
structure ArtistData where
  name : String
  id : String
  genres : List String
deriving DecidableEq, Repr

/-- One entry of `top_tracks_result["tracks"]`: the fields the script reads. -/
structure TrackItem where
  name : String
  id : String
deriving DecidableEq, Repr

/-- The dict built for each selected song (`SongData` in festival.py). -/
structure SongData where
  id : String
  name : String
  artist_name : String
  artist_id : String
deriving DecidableEq, Repr

/-- A Python exception, as far as the script can observe one. -/
inductive PyExc where
  | spotifyException (msg : String)
  | nameError (missing : String)
  | generic (msg : String)
deriving DecidableEq, Repr

/-- Severity of a console/log line. -/
inductive Level where
  | info
  | warning
  | error
deriving DecidableEq, Repr

/-- The log lines the two worker functions append, one constructor per
format string of festival.py (the workers return these for the orchestrator
to print after the phase completes). `indexOutOfBounds` is a marker for an
out-of-range read of `items[0]` on line 172; the safety claim proves it is
never produced. -/
inductive LogMsg where
  | artistNotFound (query : String)
  | noCloseMatch (query topResult : String)
  | artistHeader (query : String)
  | matchedName (name : String)
  | matchedId (id : String)
  | matchedGenres (genres : List String)
  | fetchDetailsError (query : String) (e : PyExc)
  | topSongsHeader (name id : String)
  | remixCheck (allowed : Bool)
  | noTopTracks (name : String)
  | trackAdded (name id : String)
  | trackSkipped (name : String)
  | finalCount (n : Nat) (name : String)
  | spotifyTracksError (name : String) (e : PyExc)
  | unexpectedTracksError (name : String) (e : PyExc)
  | indexOutOfBounds
deriving DecidableEq, Repr

/-- Severity of each log line, following the `[WARNING]`/`[ERROR]` markers
and plain prints of festival.py. -/
def LogMsg.level : LogMsg → Level
  | .artistNotFound _ => .warning
  | .noCloseMatch _ _ => .warning
  | .artistHeader _ => .info
  | .matchedName _ => .info
  | .matchedId _ => .info
  | .matchedGenres _ => .info
  | .fetchDetailsError _ _ => .error
  | .topSongsHeader _ _ => .info
  | .remixCheck _ => .info
  | .noTopTracks _ => .warning
  | .trackAdded _ _ => .info
  | .trackSkipped _ => .info
  | .finalCount _ _ => .info
  | .spotifyTracksError _ _ => .error
  | .unexpectedTracksError _ _ => .error
  | .indexOutOfBounds => .error

/-- Is this log line the marker for an out-of-bounds candidate read? -/
def LogMsg.isIndexCrash : LogMsg → Bool
  | .indexOutOfBounds => true
  | _ => false

/-- The candidate loop of `fetch_artist_details` (festival.py lines
150-168).  For each item the case-insensitive exact comparison of line 154
runs first; the next statement (line 160) evaluates
`difflib.SequenceMatcher`, and since the module never imports `difflib`
this raises `NameError` before the similarity threshold or the
"the "-prefix checks of lines 161-168 can run.  So the loop either selects
an item whose lowered name equals the normalized query, or aborts with the
`NameError` on the first item that fails that comparison. -/
def find_best_match (normalized_query : String) : List ArtistData → Except PyExc (Option ArtistData)
  | [] => .ok none
  | item :: _ =>
    if pyLower item.name = normalized_query then
      .ok (some item)
    else
      .error (.nameError "difflib")

/-- Worker of phase 1 (festival.py lines 131-196).  The outcome of
`sp.search` (the list `results["artists"]["items"]`, or the exception the
call raised) is passed in as `search_result`; the function returns the
matched artist record (or `none` for no match) together with its log
lines.  The `try`/`except Exception` of the source catches every exception
raised inside, including the `NameError` from the candidate loop. -/
def fetch_artist_details (search_result : Except PyExc (List ArtistData))
    (artist_name : String) : Option ArtistData × List LogMsg :=
  let normalized_query := pyLower artist_name
  match search_result with
  | .error e => (none, [.fetchDetailsError artist_name e])
  | .ok items =>
    if items.isEmpty then
      (none, [.artistNotFound artist_name])
    else
      match find_best_match normalized_query items with
      | .error e => (none, [.fetchDetailsError artist_name e])
      | .ok none =>
        match items.head? with
        | some top => (none, [.noCloseMatch artist_name top.name])
        | none => (none, [.indexOutOfBounds])
      | .ok (some best) =>
        (some { name := best.name, id := best.id, genres := best.genres },
         [.artistHeader artist_name, .matchedName best.name,
          .matchedId best.id, .matchedGenres best.genres])

/-- The remix/edit classification of festival.py lines 229-233: the track
name contains "remix" (after lowering), or contains "edit" while containing
neither "radio edit" nor "album edit". -/
def is_remix (song_name : String) : Bool :=
  pyIn "remix" (pyLower song_name) ||
    (pyIn "edit" (pyLower song_name)
      && !pyIn "radio edit" (pyLower song_name)
      && !pyIn "album edit" (pyLower song_name))

/-- The remix-allowance flag of festival.py line 209: some genre of the
artist contains some entry of `remixes_allowed` as a substring. -/
def allow_remixes_flag (artist_genres remixes_allowed : List String) : Bool :=
  artist_genres.any fun genre => remixes_allowed.any fun remix_genre => pyIn remix_genre genre

/-- The fixed remix-allowed genre list of festival.py line 61. -/
def remixes_allowed_genres : List String :=
  ["house", "dub", "trance", "breakbeat", "bass", "techno", "edm", "dance"]

/-- The track loop of festival.py lines 224-244, with `acc` playing
`tracks_to_add`.  Returns the final `tracks_to_add`, the ADDED/SKIPPED log
lines in loop order, and the list of tracks the loop examined (those it
logged a decision for) before the `len(tracks_to_add) >= 5` break fired. -/
def select_loop (allow_remixes_flag : Bool) :
    List TrackItem → List TrackItem → List TrackItem × List LogMsg × List TrackItem
  | [], acc => (acc, [], [])
  | t :: ts, acc =>
    let accepted := allow_remixes_flag || !is_remix t.name
    let acc' := if accepted then acc ++ [t] else acc
    let log : LogMsg := if accepted then .trackAdded t.name t.id else .trackSkipped t.name
    if 5 ≤ acc'.length then
      (acc', [log], [t])
    else
      let rest := select_loop allow_remixes_flag ts acc'
      (rest.1, log :: rest.2.1, t :: rest.2.2)

/-- The dict built for each kept track (festival.py lines 247-255). -/
def toSongData (artist : ArtistData) (t : TrackItem) : SongData :=
  { id := t.id, name := t.name, artist_name := artist.name, artist_id := artist.id }

/-- Worker of phase 2 (festival.py lines 199-266).  The outcome of
`sp.artist_top_tracks` (the list `top_tracks_result["tracks"]`, or the
exception the call raised) is passed in as `top_tracks_result`; returns the
selected songs and the log lines.  The two `except` clauses of the source
produce distinct error log lines but the same empty result. -/
def fetch_top_songs (artist_details : ArtistData)
    (top_tracks_result : Except PyExc (List TrackItem))
    (remixes_allowed : List String) : List SongData × List LogMsg :=
  let allow := allow_remixes_flag artist_details.genres remixes_allowed
  let logs0 : List LogMsg :=
    [.topSongsHeader artist_details.name artist_details.id, .remixCheck allow]
  match top_tracks_result with
  | .error (PyExc.spotifyException m) =>
    ([], logs0 ++ [.spotifyTracksError artist_details.name (PyExc.spotifyException m)])
  | .error e =>
    ([], logs0 ++ [.unexpectedTracksError artist_details.name e])
  | .ok all_tracks =>
    if all_tracks.isEmpty then
      ([], logs0 ++ [.noTopTracks artist_details.name])
    else
      let loop := select_loop allow (all_tracks.take 10) []
      let tracks := (loop.1.take 5).map (toSongData artist_details)
      (tracks, logs0 ++ loop.2.1 ++ [.finalCount tracks.length artist_details.name])

/-- The tracks the phase-2 loop examines for a given fetched track list
(the projection of `select_loop` used by the stop-at-5 claim). -/
def examined_tracks (artist_details : ArtistData) (all_tracks : List TrackItem)
    (remixes_allowed : List String) : List TrackItem :=
  (select_loop (allow_remixes_flag artist_details.genres remixes_allowed)
    (all_tracks.take 10) []).2.2

/-- Specification-side description of a scan that stops at the n-th element
satisfying `p`: the prefix of the list up to and including that element, or
the whole list when fewer than n elements satisfy `p`. -/
def stopsAfter (p : α → Bool) : Nat → List α → List α
  | _, [] => []
  | n, t :: ts =>
    if p t then
      if n ≤ 1 then [t] else t :: stopsAfter p (n - 1) ts
    else
      t :: stopsAfter p n ts

/-- The phase-2 aggregation loop of festival.py lines 96-101: the songs of
each worker result are appended to `all_song_details` in result order. -/
def collect_songs : List (List SongData × List LogMsg) → List SongData
  | [] => []
  | r :: rest => r.1 ++ collect_songs rest

/-- Line 112 of festival.py: the id of every collected song, in order. -/
def song_ids (songs : List SongData) : List String :=
  songs.map SongData.id

/-- Phase 2 of `main` (festival.py lines 92-94): run `fetch_top_songs` over
`valid_artists` in input order; `top_tracks` stands for the per-artist
outcome of the external top-tracks API call. -/
def phase2_results (valid_artists : List ArtistData)
    (top_tracks : ArtistData → Except PyExc (List TrackItem)) :
    List (List SongData × List LogMsg) :=
  valid_artists.map fun details =>
    fetch_top_songs details (top_tracks details) remixes_allowed_genres

/-- The batch loop of `add_tracks_in_batches` (festival.py lines 269-278):
`i` is the running start index of the `range(0, len(song_ids), 100)` loop.
Returns the list of per-call id batches and the log entries
(batch number `int(i/100) + 1`, batch size).
The extra `fuel` argument only makes the recursion structural; it never
runs out, since every iteration shortens the list by at least one element
and `add_tracks_in_batches` supplies the length of the list. -/
def add_batches_aux : Nat → List String → Nat → List (List String) × List (Nat × Nat)
  | 0, _, _ => ([], [])
  | _ + 1, [], _ => ([], [])
  | fuel + 1, s :: rest, i =>
    let batch := (s :: rest).take 100
    let r := add_batches_aux fuel ((s :: rest).drop 100) (i + 100)
    (batch :: r.1, (i / 100 + 1, batch.length) :: r.2)

/-- `add_tracks_in_batches` of festival.py: the API calls it issues (one
list of ids per call, in order) and the batch log entries. -/
def add_tracks_in_batches (song_ids : List String) :
    List (List String) × List (Nat × Nat) :=
  add_batches_aux song_ids.length song_ids 0

/-- Specification-side numbering of batch log entries: batch `k`, `k+1`, …
each with its size. -/
def batchLogsSpec : Nat → List (List String) → List (Nat × Nat)
  | _, [] => []
  | k, b :: bs => (k, b.length) :: batchLogsSpec (k + 1) bs

/-- Length of the common run of equal characters at the heads of two
lists. -/
def commonRunLen : List Char → List Char → Nat
  | a :: as, b :: bs => if a == b then commonRunLen as bs + 1 else 0
  | _, _ => 0

/-- Modelled from the spec: the longest common contiguous matching block of
two character lists, for the sequence-similarity measure of section 4.1 of
the specification (the source evaluates `difflib.SequenceMatcher` but the
module never imports `difflib`, so no implementation of it appears in the
repository).  Returns (start in the first list, start in the second list,
length) of the first longest block. -/
def bestBlock (a b : List Char) : Nat × Nat × Nat :=
  (List.range (a.length + 1)).foldl
    (fun best i =>
      (List.range (b.length + 1)).foldl
        (fun best j =>
          let k := commonRunLen (a.drop i) (b.drop j)
          if best.2.2 < k then (i, j, k) else best)
        best)
    (0, 0, 0)

/-- Modelled from the spec: the total number of matching characters — the
longest common block plus, recursively, the matches to its left and to its
right (the classic Ratcliff/Obershelp count).  `fuel` bounds the recursion
depth; `matchesCount` supplies more than enough. -/
def matchesAux : Nat → List Char → List Char → Nat
  | 0, _, _ => 0
  | fuel + 1, a, b =>
    let ijk := bestBlock a b
    if ijk.2.2 = 0 then 0
    else
      matchesAux fuel (a.take ijk.1) (b.take ijk.2.1) + ijk.2.2 +
        matchesAux fuel (a.drop (ijk.1 + ijk.2.2)) (b.drop (ijk.2.1 + ijk.2.2))

/-- Modelled from the spec: matching-character count with sufficient fuel. -/
def matchesCount (a b : List Char) : Nat :=
  matchesAux (a.length + b.length + 1) a b

/-- Modelled from the spec: twice the number of matching characters divided
by the total length of both strings — the similarity the threshold 0.90 of
festival.py line 161 is compared against. -/
def sequenceRatio (a b : String) : ℚ :=
  (2 * matchesCount a.data b.data : ℚ) / ((a.data.length + b.data.length : Nat) : ℚ)

/-- A concrete list of 150 distinct track ids, for the 150-track batch-add
scenario of the specification. -/
def sample150 : List String :=
  (List.range 150).map fun n => toString n

/-! ## Helper lemmas -/

theorem select_loop_fst (allow : Bool) (ts : List TrackItem) :
    ∀ acc : List TrackItem, acc.length ≤ 4 →
      (select_loop allow ts acc).1
        = (acc ++ ts.filter fun t => allow || !is_remix t.name).take 5 := by
  induction ts with
  | nil =>
    intro acc hacc
    simp [select_loop, List.take_of_length_le (show acc.length ≤ 5 by omega)]
  | cons t ts ih =>
    intro acc hacc
    cases hv : (allow || !is_remix t.name) with
    | true =>
      by_cases h4 : acc.length = 4
      · have hlen : (acc ++ [t]).length = 5 := by simp [h4]
        simp only [select_loop, hv, eq_self_iff_true, if_true, List.filter_cons]
        rw [if_pos hlen.ge]
        rw [show acc ++ t :: List.filter (fun t => allow || !is_remix t.name) ts
              = (acc ++ [t]) ++ List.filter (fun t => allow || !is_remix t.name) ts by
            simp]
        rw [← hlen, List.take_left]
      · have hle : (acc ++ [t]).length ≤ 4 := by
          simp only [List.length_append, List.length_cons, List.length_nil]
          omega
        have hnot : ¬ 5 ≤ (acc ++ [t]).length := by omega
        simp only [select_loop, hv, eq_self_iff_true, if_true, List.filter_cons]
        rw [if_neg hnot, ih (acc ++ [t]) hle]
        simp
    | false =>
      have hnot : ¬ 5 ≤ acc.length := by omega
      simp only [select_loop, hv, Bool.false_eq_true, if_false, List.filter_cons]
      rw [if_neg hnot]
      exact ih acc hacc

theorem select_loop_examined (allow : Bool) (ts : List TrackItem) :
    ∀ acc : List TrackItem, acc.length ≤ 4 →
      (select_loop allow ts acc).2.2
        = stopsAfter (fun t => allow || !is_remix t.name) (5 - acc.length) ts := by
  induction ts with
  | nil =>
    intro acc hacc
    simp [select_loop, stopsAfter]
  | cons t ts ih =>
    intro acc hacc
    cases hv : (allow || !is_remix t.name) with
    | true =>
      by_cases h4 : acc.length = 4
      · have h5 : 5 ≤ (acc ++ [t]).length := by simp [h4]
        have hn : 5 - acc.length ≤ 1 := by omega
        simp only [select_loop, stopsAfter, hv, eq_self_iff_true, if_true]
        rw [if_pos h5, if_pos hn]
      · have hle : (acc ++ [t]).length ≤ 4 := by
          simp only [List.length_append, List.length_cons, List.length_nil]
          omega
        have hnot : ¬ 5 ≤ (acc ++ [t]).length := by omega
        have hn : ¬ (5 - acc.length ≤ 1) := by omega
        simp only [select_loop, stopsAfter, hv, eq_self_iff_true, if_true]
        rw [if_neg hnot, if_neg hn, ih (acc ++ [t]) hle]
        have harith : 5 - (acc ++ [t]).length = 5 - acc.length - 1 := by
          simp only [List.length_append, List.length_cons, List.length_nil]
          omega
        rw [harith]
    | false =>
      have hnot : ¬ 5 ≤ acc.length := by omega
      simp only [select_loop, stopsAfter, hv, Bool.false_eq_true, if_false]
      rw [if_neg hnot, ih acc hacc]

theorem fetch_top_songs_ok_fst (artist : ArtistData) (all_tracks : List TrackItem)
    (remixes_allowed : List String) :
    (fetch_top_songs artist (.ok all_tracks) remixes_allowed).1
      = (((all_tracks.take 10).filter fun t =>
          allow_remixes_flag artist.genres remixes_allowed || !is_remix t.name).take 5).map
          (toSongData artist) := by
  by_cases h : all_tracks.isEmpty
  · have : all_tracks = [] := by
      cases all_tracks with
      | nil => rfl
      | cons a l => simp [List.isEmpty] at h
    subst this
    simp [fetch_top_songs]
  · simp only [fetch_top_songs]
    rw [if_neg (by simp [h])]
    rw [select_loop_fst _ _ [] (by simp)]
    simp [List.take_take]

theorem collect_song_ids (results : List (List SongData × List LogMsg)) :
    song_ids (collect_songs results)
      = (results.map fun r => song_ids r.1).flatten := by
  induction results with
  | nil => rfl
  | cons r rest ih =>
    simp only [collect_songs, song_ids, List.map_append, List.map_cons, List.flatten_cons]
    rw [show List.map SongData.id (collect_songs rest) = song_ids (collect_songs rest) from rfl,
        ih]
    rfl

theorem add_batches_aux_nil (fuel i : Nat) : add_batches_aux fuel [] i = ([], []) := by
  cases fuel <;> rfl

theorem add_batches_aux_flatten (fuel : Nat) :
    ∀ (ids : List String) (i : Nat), ids.length ≤ fuel →
      (add_batches_aux fuel ids i).1.flatten = ids := by
  induction fuel with
  | zero =>
    intro ids i h
    have : ids = [] := List.length_eq_zero.mp (Nat.le_zero.mp h)
    subst this
    rfl
  | succ fuel ih =>
    intro ids i h
    cases ids with
    | nil => rfl
    | cons s rest =>
      simp only [add_batches_aux, List.flatten_cons]
      rw [ih ((s :: rest).drop 100) (i + 100) (by simp at h ⊢; omega)]
      exact List.take_append_drop 100 (s :: rest)

theorem add_batches_aux_count (fuel : Nat) :
    ∀ (ids : List String) (i : Nat), ids.length ≤ fuel →
      (add_batches_aux fuel ids i).1.length = (ids.length + 99) / 100 := by
  induction fuel with
  | zero =>
    intro ids i h
    have : ids = [] := List.length_eq_zero.mp (Nat.le_zero.mp h)
    subst this
    rfl
  | succ fuel ih =>
    intro ids i h
    cases ids with
    | nil => rfl
    | cons s rest =>
      simp only [add_batches_aux, List.length_cons]
      rw [ih ((s :: rest).drop 100) (i + 100) (by simp at h ⊢; omega)]
      simp only [List.length_drop, List.length_cons]
      omega

theorem add_batches_aux_sizes (fuel : Nat) :
    ∀ (ids : List String) (i : Nat) (b : List String),
      b ∈ (add_batches_aux fuel ids i).1 → b.length ≤ 100 := by
  induction fuel with
  | zero =>
    intro ids i b hb
    simp [add_batches_aux] at hb
  | succ fuel ih =>
    intro ids i b hb
    cases ids with
    | nil => simp [add_batches_aux_nil] at hb
    | cons s rest =>
      simp only [add_batches_aux, List.mem_cons] at hb
      cases hb with
      | inl h => subst h; exact List.length_take_le 100 (s :: rest)
      | inr h => exact ih _ _ _ h

theorem add_batches_aux_logs (fuel : Nat) :
    ∀ (ids : List String) (k : Nat),
      (add_batches_aux fuel ids (100 * k)).2
        = batchLogsSpec (k + 1) (add_batches_aux fuel ids (100 * k)).1 := by
  induction fuel with
  | zero => intro ids k; rfl
  | succ fuel ih =>
    intro ids k
    cases ids with
    | nil => rfl
    | cons s rest =>
      simp only [add_batches_aux, batchLogsSpec]
      have hdiv : 100 * k / 100 + 1 = k + 1 :=
        congrArg (· + 1) (Nat.mul_div_cancel_left k (by norm_num))
      rw [hdiv]
      have : (100 * k + 100) = 100 * (k + 1) := by ring
      rw [this, ih ((s :: rest).drop 100) (k + 1)]

theorem fetch_top_songs_length_le (artist : ArtistData)
    (res : Except PyExc (List TrackItem)) (remixes_allowed : List String) :
    (fetch_top_songs artist res remixes_allowed).1.length ≤ 5 := by
  cases res with
  | error e => cases e <;> simp [fetch_top_songs]
  | ok all_tracks =>
    rw [fetch_top_songs_ok_fst]
    simp only [List.length_map]
    exact List.length_take_le 5 _

/-! ## Claim theorems -/

/-- C1: the tracks `fetch_top_songs` keeps are exactly the tracks of the
first 10 fetched that pass `allowRemixes || !isRemixOrEdit`, in fetched
order, capped at 5; concretely, with no remix-allowed genre
"Song (Radio Edit)" and "Song (Album Edit)" are accepted while
"Song (Edit)" and "Song Remix" are rejected, and with a remix-allowed
genre all four are accepted. -/
theorem fetch_top_songs_acceptance :
    (∀ (artist : ArtistData) (all_tracks : List TrackItem)
        (remixes_allowed : List String),
      (fetch_top_songs artist (.ok all_tracks) remixes_allowed).1
        = (((all_tracks.take 10).filter fun t =>
            allow_remixes_flag artist.genres remixes_allowed || !is_remix t.name).take 5).map
            (toSongData artist))
    ∧ (fetch_top_songs ⟨"A", "aid", []⟩
        (.ok [⟨"Song (Radio Edit)", "t1"⟩, ⟨"Song (Edit)", "t2"⟩,
              ⟨"Song (Album Edit)", "t3"⟩, ⟨"Song Remix", "t4"⟩])
        remixes_allowed_genres).1
        = [⟨"t1", "Song (Radio Edit)", "A", "aid"⟩,
           ⟨"t3", "Song (Album Edit)", "A", "aid"⟩]
    ∧ (fetch_top_songs ⟨"A", "aid", ["house"]⟩
        (.ok [⟨"Song (Radio Edit)", "t1"⟩, ⟨"Song (Edit)", "t2"⟩,
              ⟨"Song (Album Edit)", "t3"⟩, ⟨"Song Remix", "t4"⟩])
        remixes_allowed_genres).1
        = [⟨"t1", "Song (Radio Edit)", "A", "aid"⟩, ⟨"t2", "Song (Edit)", "A", "aid"⟩,
           ⟨"t3", "Song (Album Edit)", "A", "aid"⟩, ⟨"t4", "Song Remix", "A", "aid"⟩] :=
  ⟨fetch_top_songs_ok_fst, by decide, by decide⟩

/-- C5: the remix-allowance flag is true exactly when some genre string of
the artist contains, as a substring, some entry of the fixed 8-token
remix-allowed genre list. -/
theorem allow_remixes_characterization :
    (∀ artist_genres : List String,
      allow_remixes_flag artist_genres remixes_allowed_genres = true
        ↔ ∃ genre ∈ artist_genres, ∃ remix_genre ∈ remixes_allowed_genres,
            pyIn remix_genre genre = true)
    ∧ remixes_allowed_genres.length = 8 := by
  constructor
  · intro gs
    simp [allow_remixes_flag, List.any_eq_true]
  · rfl

/-- C6: `fetch_top_songs` returns at most 5 tracks for every argument, and
the tracks it examines are exactly the prefix of the first 10 fetched
tracks that ends with the 5th accepted track (or all of the first 10 when
fewer than 5 are accepted). -/
theorem fetch_top_songs_cap_and_stop :
    (∀ (artist : ArtistData) (top_tracks_result : Except PyExc (List TrackItem))
        (remixes_allowed : List String),
      (fetch_top_songs artist top_tracks_result remixes_allowed).1.length ≤ 5)
    ∧ (∀ (artist : ArtistData) (all_tracks : List TrackItem)
        (remixes_allowed : List String),
      examined_tracks artist all_tracks remixes_allowed
        = stopsAfter
            (fun t => allow_remixes_flag artist.genres remixes_allowed || !is_remix t.name)
            5 (all_tracks.take 10)) := by
  refine ⟨fetch_top_songs_length_le, ?_⟩
  intro artist all_tracks ra
  unfold examined_tracks
  rw [select_loop_examined _ _ [] (by simp)]
  rfl

/-- C7: the id list fed to playlist creation is the concatenation, in
artist order, of each artist's selected-track id sequence, each per-artist
sequence of length at most 5; nothing is reordered, dropped or
duplicated. -/
theorem playlist_song_ids_concatenation :
    (∀ (valid_artists : List ArtistData)
        (top_tracks : ArtistData → Except PyExc (List TrackItem)),
      song_ids (collect_songs (phase2_results valid_artists top_tracks))
        = (valid_artists.map fun details =>
            song_ids (fetch_top_songs details (top_tracks details)
              remixes_allowed_genres).1).flatten)
    ∧ (∀ (details : ArtistData) (top : Except PyExc (List TrackItem)),
      (fetch_top_songs details top remixes_allowed_genres).1.length ≤ 5) := by
  constructor
  · intro va tt
    rw [collect_song_ids]
    simp only [phase2_results, List.map_map]
    rfl
  · intro details top
    exact fetch_top_songs_length_le details top remixes_allowed_genres

set_option maxRecDepth 8000 in
/-- C8: `add_tracks_in_batches` issues ceil(n/100) calls over consecutive
slices of at most 100 ids whose concatenation is the input, logging batch
numbers 1, 2, … with sizes; a 150-id list yields exactly the two calls
(first 100 ids, remaining 50) logged as batch 1 of 100 and batch 2 of
50. -/
theorem add_tracks_in_batches_spec :
    (∀ ids : List String,
      (add_tracks_in_batches ids).1.length = (ids.length + 99) / 100
      ∧ (add_tracks_in_batches ids).1.flatten = ids
      ∧ (∀ b ∈ (add_tracks_in_batches ids).1, b.length ≤ 100)
      ∧ (add_tracks_in_batches ids).2 = batchLogsSpec 1 (add_tracks_in_batches ids).1)
    ∧ add_tracks_in_batches sample150
        = ([sample150.take 100, sample150.drop 100], [(1, 100), (2, 50)]) := by
  constructor
  · intro ids
    refine ⟨add_batches_aux_count _ _ _ le_rfl, add_batches_aux_flatten _ _ _ le_rfl,
      fun b hb => add_batches_aux_sizes _ _ _ _ hb, ?_⟩
    have h := add_batches_aux_logs ids.length ids 0
    simp only [Nat.mul_zero] at h
    exact h
  · decide

/-- C9: when the external fetch raises, `fetch_artist_details` returns no
match and `fetch_top_songs` returns no tracks, each with an error-level log
line (and, being total functions, without propagating the exception). -/
theorem worker_error_containment :
    (∀ (artist_name : String) (e : PyExc),
      fetch_artist_details (.error e) artist_name
        = (none, [LogMsg.fetchDetailsError artist_name e])
      ∧ (LogMsg.fetchDetailsError artist_name e).level = Level.error)
    ∧ (∀ (artist : ArtistData) (e : PyExc) (remixes_allowed : List String),
      (fetch_top_songs artist (.error e) remixes_allowed).1 = []
      ∧ ∃ m ∈ (fetch_top_songs artist (.error e) remixes_allowed).2,
          m.level = Level.error) := by
  constructor
  · intro n e
    exact ⟨rfl, rfl⟩
  · intro a e ra
    cases e with
    | spotifyException m =>
      refine ⟨rfl, ⟨.spotifyTracksError a.name (.spotifyException m), ?_, rfl⟩⟩
      simp [fetch_top_songs]
    | nameError s =>
      refine ⟨rfl, ⟨.unexpectedTracksError a.name (.nameError s), ?_, rfl⟩⟩
      simp [fetch_top_songs]
    | generic s =>
      refine ⟨rfl, ⟨.unexpectedTracksError a.name (.generic s), ?_, rfl⟩⟩
      simp [fetch_top_songs]

/-- C10: the diagnostic read of the first candidate in the no-close-match
branch is always in bounds — on no input does `fetch_artist_details`
produce the out-of-bounds marker (the empty-candidate case returns before
the scan, so the list is non-empty wherever `items[0]` is read). -/
theorem fetch_artist_details_index_safety :
    ∀ (search_result : Except PyExc (List ArtistData)) (artist_name : String),
      ((fetch_artist_details search_result artist_name).2.all
        fun m => !m.isIndexCrash) = true := by
  intro sr name
  cases sr with
  | error e => rfl
  | ok items =>
    cases items with
    | nil => rfl
    | cons a rest =>
      cases h : find_best_match (pyLower name) (a :: rest) with
      | error e => simp [fetch_artist_details, h, LogMsg.isIndexCrash]
      | ok o =>
        cases o with
        | none => simp [fetch_artist_details, h, LogMsg.isIndexCrash, List.head?]
        | some best => simp [fetch_artist_details, h, LogMsg.isIndexCrash]

/-- C2 (code bug witness): the second candidate is an exact
case-insensitive match for the query, yet the scan aborts on the first
candidate — the reference to the never-imported `difflib` raises, and the
resolver returns no match with an error log instead of selecting the
second candidate. -/
theorem missing_difflib_aborts_scan :
    pyLower "ABC" = pyLower "Abc"
    ∧ fetch_artist_details (.ok [⟨"Zzz", "z1", []⟩, ⟨"ABC", "a1", []⟩]) "Abc"
      = (none, [.fetchDetailsError "Abc" (.nameError "difflib")]) :=
  ⟨by decide, by decide⟩

set_option maxRecDepth 8000 in
/-- C3 (code bug witness): the sole candidate has similarity 20/21 > 0.90
to the query (and a variant shows the 9/10 boundary value), yet the
similarity check never evaluates — the resolver returns no match with a
`NameError` log because `difflib` is never imported. -/
theorem missing_difflib_defeats_similarity :
    (9 : ℚ) / 10 < sequenceRatio "aaaaaaaaaa" "aaaaaaaaaav"
    ∧ sequenceRatio "aaaaaaaaaa" "aaaaaaaaav" = 9 / 10
    ∧ (pyLower "aaaaaaaaaav" == pyLower "aaaaaaaaaa") = false
    ∧ fetch_artist_details (.ok [⟨"aaaaaaaaaav", "s1", []⟩]) "aaaaaaaaaa"
      = (none, [.fetchDetailsError "aaaaaaaaaa" (.nameError "difflib")]) := by
  refine ⟨?_, ?_, by decide, by decide⟩
  · have h : matchesCount "aaaaaaaaaa".data "aaaaaaaaaav".data = 10 := by decide
    have h1 : "aaaaaaaaaa".data.length = 10 := rfl
    have h2 : "aaaaaaaaaav".data.length = 11 := rfl
    unfold sequenceRatio
    rw [h, h1, h2]
    norm_num
  · have h : matchesCount "aaaaaaaaaa".data "aaaaaaaaav".data = 9 := by decide
    have h1 : "aaaaaaaaaa".data.length = 10 := rfl
    have h2 : "aaaaaaaaav".data.length = 10 := rfl
    unfold sequenceRatio
    rw [h, h1, h2]
    norm_num

/-- C4 (code bug witness): the query begins with "the " and the sole
candidate equals the query with that prefix stripped, yet the scan aborts
before the "the "-rule line — the `difflib` reference on the preceding
line raises first, and the resolver returns no match with an error log. -/
theorem missing_difflib_defeats_the_rule :
    startsWithL (pyLower "The xx").data "the ".data = true
    ∧ (pyLower "The xx").data.drop 4 = (pyLower "xx").data
    ∧ fetch_artist_details (.ok [⟨"xx", "x1", []⟩]) "The xx"
      = (none, [.fetchDetailsError "The xx" (.nameError "difflib")]) :=
  ⟨by decide, by decide, by decide⟩

end Festival
